import Mathlib

/-!
Verification development for the sockeye encoder module
(`sockeye/encoder.py`) and initializer module (`sockeye/initializer.py`).

The encoders build MXNet symbolic computation graphs: every `mx.sym.*`
call declares a new graph node and returns a handle.  We embed the
symbolic graph deeply as the inductive type `Symb`, whose constructors are
exactly the symbolic operations the two modules emit, carrying the same
arguments the Python code passes.  Parameterized sub-modules imported from
`sockeye.layers` (`MultiHeadAttention`, `LayerNormalization`, `FFNRelu`)
and from the RNN libraries are represented by records of their
construction arguments: in MXNet, a module's learned parameters are
identified by its name prefix, so two records with different prefixes
stand for disjoint parameter sets.

Python floats that the encoders only store and compare to zero (dropout
probabilities, forget biases, scales) are modelled as rationals.
Fallible construction paths are modelled with `Except`.
-/

/-- Modelled from the spec: `sockeye.utils.check_condition` (imported by
`encoder.py`, module not among the given sources).  Per the spec's error
handling design, configuration validation "fails fast at construction
... with a descriptive configuration error"; we model the raising call as
an `Except` value carrying the message. -/
def check_condition (condition : Bool) (error_message : String) : Except String Unit :=
  if condition then Except.ok () else Except.error error_message

/-- Modelled from the spec: time-major layout tag from `sockeye.constants`
(module not among the given sources); the spec glossary defines time-major
as `(time,batch,channels)`.  `encoder.py` only inspects the first character
of a layout tag (`layout[0] == 'N'`), which for time-major is the time
axis, not the batch axis `N`. -/
def TIME_MAJOR : String := "TNC"

/-- Modelled from the spec: batch-major layout tag `(batch,time,channels)`
from `sockeye.constants`; its first character is the batch axis `N`,
which is what `encoder.py` tests for. -/
def BATCH_MAJOR : String := "NTC"

/-- Modelled from the spec: the forward-RNN name-prefix suffix from
`sockeye.constants` appended by the bidirectional encoder for its
"forward-named" stage. -/
def FORWARD_PFX : String := "forward_"

/-- Modelled from the spec: the reverse-RNN name-prefix suffix from
`sockeye.constants` appended by the bidirectional encoder for its
"reverse-named" stage. -/
def REVERSE_PFX : String := "reverse_"

/-- Modelled from the spec: the orthogonal RNN-initializer tag from
`sockeye.constants` accepted by `get_initializer`. -/
def RNN_INIT_ORTHOGONAL : String := "orthogonal"

/-- Modelled from the spec: the stacked-orthogonal RNN-initializer tag from
`sockeye.constants` accepted by `get_initializer`. -/
def RNN_INIT_ORTHOGONAL_STACKED : String := "orthogonal_stacked"

/-- First character of a string, `s[0]` in Python (`none` on the empty
string, where Python would raise `IndexError`). -/
def firstChar (s : String) : Option Char :=
  s.data.head?

/-- Construction arguments of a `sockeye.layers.MultiHeadAttention`
module (`encoder.py` lines 520-524).  The module is external to the given
sources; its learned parameters are identified by `prefixStr`. -/
structure MultiHeadAttention where
  depth_att : Nat
  heads : Nat
  depth_out : Nat
  dropout : Rat
  prefixStr : String
deriving DecidableEq, Repr

/-- Construction arguments of a `sockeye.layers.LayerNormalization`
module (`encoder.py` lines 526-527, 534-535). -/
structure LayerNormalization where
  num_hidden : Nat
  prefixStr : String
deriving DecidableEq, Repr

/-- Construction arguments of a `sockeye.layers.FFNRelu` position-wise
feed-forward module (`encoder.py` lines 529-532). -/
structure FFNRelu where
  prefixStr : String
  num_hidden : Nat
  num_model : Nat
  dropout : Rat
deriving DecidableEq, Repr

/-- Construction arguments of the stacked RNN cell returned by
`sockeye.rnn.get_stacked_rnn` (`encoder.py` lines 315-317; the rnn module
is external to the given sources, so the cell is opaque and identified by
its arguments). -/
structure StackedRNNCell where
  cell_type : String
  num_hidden : Nat
  num_layers : Nat
  dropout : Rat
  prefixStr : String
  residual : Bool
  forget_bias : Rat
deriving DecidableEq, Repr

/-- Construction arguments of an `mx.rnn.FusedRNNCell`
(`encoder.py` lines 362-368). -/
structure FusedRNNCell where
  num_hidden : Nat
  num_layers : Nat
  mode : String
  bidirectional : Bool
  dropout : Rat
  forget_bias : Rat
  prefixStr : String
deriving DecidableEq, Repr

/-- Deep embedding of the MXNet symbolic-graph nodes built by
`encoder.py`.  Each constructor is one `mx.sym` operation (or one call
into an opaque parameterized sub-module) with the arguments the source
passes. -/
inductive Symb where
  /-- `mx.sym.Variable(name)` -/
  | var (name : String)
  /-- `mx.sym.Variable(name, shape=(max_seq_len, num_embed), init=PositionalEncodingInitializer(...))`
  (`encoder.py` lines 239-241) -/
  | posEncVar (name : String) (max_seq_len : Nat) (num_embed : Nat)
  /-- `mx.sym.swapaxes(data, dim1, dim2)` -/
  | swapaxes (data : Symb) (dim1 dim2 : Nat)
  /-- `mx.sym.SequenceReverse(data, sequence_length, use_sequence_length)` -/
  | sequenceReverse (data : Symb) (sequence_length : Symb) (use_sequence_length : Bool)
  /-- `mx.sym.concat(lhs, rhs, dim, name)` -/
  | concatSym (lhs rhs : Symb) (dim : Nat) (name : String)
  /-- `mx.sym.Embedding(data, input_dim, weight, output_dim, name)` -/
  | embeddingOp (data : Symb) (input_dim : Nat) (weight : Symb) (output_dim : Nat) (name : String)
  /-- `mx.sym.broadcast_add(lhs, rhs, name)` -/
  | broadcastAdd (lhs rhs : Symb) (name : String)
  /-- `mx.sym.Dropout(data, p, name)` -/
  | dropoutOp (data : Symb) (p : Rat) (name : String)
  /-- `mx.sym.slice_axis(data, axis, begin, end)` -/
  | sliceAxis (data : Symb) (axis : Nat) (beginIdx endIdx : Nat)
  /-- `mx.sym.expand_dims(data, axis)` -/
  | expandDims (data : Symb) (axis : Nat)
  /-- `mx.sym.BlockGrad(data)` -/
  | blockGrad (data : Symb)
  /-- elementwise `+` on symbols -/
  | add (lhs rhs : Symb)
  /-- `attention.on(data, data_length, seq_len)` for a `MultiHeadAttention` module -/
  | attnOn (module : MultiHeadAttention) (data : Symb) (data_length : Symb) (seq_len : Nat)
  /-- `ln.normalize(data)` for a `LayerNormalization` module -/
  | lnNormalize (module : LayerNormalization) (data : Symb)
  /-- `ffn.apply(data, seq_len)` for an `FFNRelu` module -/
  | ffnApply (module : FFNRelu) (data : Symb) (seq_len : Nat)
  /-- `rnn.unroll(seq_len, inputs, merge_outputs=True, layout)` on a stacked RNN cell -/
  | unrollStacked (cell : StackedRNNCell) (seq_len : Nat) (inputs : Symb) (layout : String)
  /-- `cell.unroll(seq_len, inputs, merge_outputs=True, layout)` on a fused RNN cell -/
  | unrollFused (cell : FusedRNNCell) (seq_len : Nat) (inputs : Symb) (layout : String)
deriving DecidableEq, Repr

/-- Declared trailing (channel) dimension of a symbolic tensor, when it
can be read off the graph: RNN unrolls and the parameterized sub-modules
fix their output width; reversal, layout transposition of the first two
axes, normalization and elementwise addition preserve it;
`expand_dims`/`slice_axis` on axis 0 leave the trailing axis alone;
`concat` along axis 2 adds the widths. -/
def symbChannels : Symb → Option Nat
  | .var _ => none
  | .posEncVar _ _ num_embed => some num_embed
  | .swapaxes data dim1 dim2 =>
      if (dim1 = 0 ∧ dim2 = 1) ∨ (dim1 = 1 ∧ dim2 = 0) then symbChannels data else none
  | .sequenceReverse data _ _ => symbChannels data
  | .concatSym lhs rhs dim _ =>
      if dim = 2 then
        (symbChannels lhs).bind (fun a => (symbChannels rhs).map (fun b => a + b))
      else none
  | .embeddingOp _ _ _ output_dim _ => some output_dim
  | .broadcastAdd lhs _ _ => symbChannels lhs
  | .dropoutOp data _ _ => symbChannels data
  | .sliceAxis data axis _ _ => if axis = 0 then symbChannels data else none
  | .expandDims data axis => if axis = 0 then symbChannels data else none
  | .blockGrad data => symbChannels data
  | .add lhs _ => symbChannels lhs
  | .attnOn module _ _ _ => some module.depth_out
  | .lnNormalize _ data => symbChannels data
  | .ffnApply module _ _ => some module.num_model
  | .unrollStacked cell _ _ _ => some cell.num_hidden
  | .unrollFused cell _ _ _ => some cell.num_hidden

/-- Embedding stage (`encoder.py` class `Embedding`, lines 184-256; named
`EmbeddingStage` here because `Embedding` is taken by the ambient
mathematics library).  Holds the construction arguments plus the
embedding-weight variable the constructor declares. -/
structure EmbeddingStage where
  num_embed : Nat
  vocab_size : Nat
  prefixStr : String
  dropout : Rat
  embed_weight : Symb
  add_positional_encoding : Bool
deriving DecidableEq, Repr

/-- `Embedding.__init__` (`encoder.py` lines 194-205): stores the
arguments and declares the weight variable `prefix + "weight"`. -/
def EmbeddingStage.init (num_embed vocab_size : Nat) (prefixStr : String)
    (dropout : Rat) (add_positional_encoding : Bool) : EmbeddingStage :=
  { num_embed, vocab_size, prefixStr, dropout,
    embed_weight := Symb.var (prefixStr ++ "weight"),
    add_positional_encoding }

/-- `Embedding._get_positional_encoding` (`encoder.py` lines 229-244):
declares a `(500, num_embed)` variable initialized with the sinusoidal
positional encodings, slices axis 0 to `[0:seq_len]`, expands a leading
batch axis and blocks its gradient. -/
def EmbeddingStage.getPositionalEncoding (e : EmbeddingStage) (seq_len : Nat) : Symb :=
  let max_seq_len : Nat := 500
  let encodings := Symb.posEncVar (e.prefixStr ++ "positional_encodings") max_seq_len e.num_embed
  let encodings := Symb.sliceAxis encodings 0 0 seq_len
  Symb.blockGrad (Symb.expandDims encodings 0)

/-- `Embedding.encode` (`encoder.py` lines 207-227): embedding lookup,
then, when enabled, broadcast addition of the positional-encoding slice,
then dropout when the probability is positive.  `data_length` is unused
by this stage. -/
def EmbeddingStage.encode (e : EmbeddingStage) (data : Symb) (_data_length : Symb)
    (seq_len : Nat) : Symb :=
  let embedding := Symb.embeddingOp data e.vocab_size e.embed_weight e.num_embed
    (e.prefixStr ++ "embed")
  let embedding := if e.add_positional_encoding then
      Symb.broadcastAdd embedding (e.getPositionalEncoding seq_len) (e.prefixStr ++ "add_encoding")
    else embedding
  if 0 < e.dropout then Symb.dropoutOp embedding e.dropout "source_embed_dropout" else embedding

/-- Uni-directional stacked recurrent encoder (`encoder.py` class
`RecurrentEncoder`, lines 299-342). -/
structure RecurrentEncoder where
  layout : String
  num_hidden : Nat
  rnn : StackedRNNCell
deriving DecidableEq, Repr

/-- `RecurrentEncoder.__init__` (`encoder.py` lines 304-317): stores
layout and width, and builds the stacked RNN cell from the arguments. -/
def RecurrentEncoder.init (num_hidden num_layers : Nat) (prefixStr : String)
    (dropout : Rat) (layout cell_type : String) (residual : Bool)
    (forget_bias : Rat) : RecurrentEncoder :=
  { layout, num_hidden,
    rnn := { cell_type, num_hidden, num_layers, dropout, prefixStr, residual, forget_bias } }

/-- `RecurrentEncoder.encode` (`encoder.py` lines 319-330): unrolls the
stacked cell over `seq_len` steps; `data_length` is unused. -/
def RecurrentEncoder.encode (e : RecurrentEncoder) (data : Symb) (_data_length : Symb)
    (seq_len : Nat) : Symb :=
  Symb.unrollStacked e.rnn seq_len data e.layout

/-- `RecurrentEncoder.get_rnn_cells` (`encoder.py` lines 332-336). -/
def RecurrentEncoder.getRnnCells (e : RecurrentEncoder) : List StackedRNNCell :=
  [e.rnn]

/-- Fused uni-directional recurrent encoder (`encoder.py` class
`FusedRecurrentEncoder`, lines 345-395). -/
structure FusedRecurrentEncoder where
  layout : String
  num_hidden : Nat
  rnn : List FusedRNNCell
deriving DecidableEq, Repr

set_option linter.unusedVariables false in
/-- `FusedRecurrentEncoder.__init__` (`encoder.py` lines 350-368): stores
layout and width and builds a one-element list holding an
`mx.rnn.FusedRNNCell`.  The `residual` argument is accepted but never
read by the source constructor body. -/
def FusedRecurrentEncoder.init (num_hidden num_layers : Nat) (prefixStr : String)
    (dropout : Rat) (layout cell_type : String) (residual : Bool)
    (forget_bias : Rat) : FusedRecurrentEncoder :=
  { layout, num_hidden,
    rnn := [{ num_hidden, num_layers, mode := cell_type, bidirectional := false,
              dropout, forget_bias, prefixStr }] }

/-- `FusedRecurrentEncoder.encode` (`encoder.py` lines 370-383): folds the
input through each cell's unroll; `data_length` is unused. -/
def FusedRecurrentEncoder.encode (e : FusedRecurrentEncoder) (data : Symb)
    (_data_length : Symb) (seq_len : Nat) : Symb :=
  e.rnn.foldl (fun outputs cell => Symb.unrollFused cell seq_len outputs e.layout) data

/-- `FusedRecurrentEncoder.get_rnn_cells` (`encoder.py` lines 385-389). -/
def FusedRecurrentEncoder.getRnnCells (e : FusedRecurrentEncoder) : List FusedRNNCell :=
  e.rnn

/-- The `encoder_class` argument of `BiDirectionalRNNEncoder.__init__`
(`encoder.py` line 420): either `RecurrentEncoder` or
`FusedRecurrentEncoder`, the two classes passed by `get_encoder_rnn`
(line 64). -/
inductive EncoderClassTag where
  | recurrentClass
  | fusedClass
deriving DecidableEq, Repr

/-- A uni-directional recurrent encoder instance of either class, as held
by the bidirectional encoder's `forward_rnn`/`reverse_rnn` fields. -/
inductive UniRNNEncoder where
  | recE (e : RecurrentEncoder)
  | fusedE (e : FusedRecurrentEncoder)
deriving DecidableEq, Repr

/-- `encode` dispatch over the two uni-directional encoder classes. -/
def UniRNNEncoder.encode : UniRNNEncoder → Symb → Symb → Nat → Symb
  | .recE e, data, dl, sl => RecurrentEncoder.encode e data dl sl
  | .fusedE e, data, dl, sl => FusedRecurrentEncoder.encode e data dl sl

/-- Instantiating `encoder_class(num_hidden=..., num_layers=...,
prefix=..., dropout=..., layout=..., cell_type=..., forget_bias=...)` as
done at `encoder.py` lines 428-435; the `residual` argument is left at
its default `False` in both classes. -/
def mkEncoderClassInstance (tag : EncoderClassTag) (num_hidden num_layers : Nat)
    (prefixStr : String) (dropout : Rat) (layout cell_type : String)
    (forget_bias : Rat) : UniRNNEncoder :=
  match tag with
  | .recurrentClass =>
      .recE (RecurrentEncoder.init num_hidden num_layers prefixStr dropout layout
        cell_type false forget_bias)
  | .fusedClass =>
      .fusedE (FusedRecurrentEncoder.init num_hidden num_layers prefixStr dropout layout
        cell_type false forget_bias)

/-- Bidirectional recurrent encoder (`encoder.py` class
`BiDirectionalRNNEncoder`, lines 398-484). -/
structure BiDirectionalRNNEncoder where
  num_hidden : Nat
  forward_rnn : UniRNNEncoder
  reverse_rnn : UniRNNEncoder
  layout : String
  prefixStr : String
deriving DecidableEq, Repr

/-- `BiDirectionalRNNEncoder.__init__` (`encoder.py` lines 413-437):
`check_condition` rejects odd `num_hidden` with a descriptive message
before anything else; then the forward and reverse sub-encoders are built
with half the width, time-major layout, and distinct name prefixes.  The
batch-major branch at line 424 only logs a warning, but its subscript
`layout[0]` raises `IndexError` on an empty layout string. -/
def BiDirectionalRNNEncoder.init (num_hidden num_layers : Nat) (prefixStr : String)
    (dropout : Rat) (layout cell_type : String) (encoder_class : EncoderClassTag)
    (forget_bias : Rat) : Except String BiDirectionalRNNEncoder := do
  let _ ← check_condition (num_hidden % 2 == 0)
    "num_hidden must be a multiple of 2 for BiDirectionalRNNEncoders."
  match firstChar layout with
  | none => Except.error "IndexError: string index out of range"
  | some _ =>
    Except.ok
      { num_hidden := num_hidden,
        forward_rnn := mkEncoderClassInstance encoder_class (num_hidden / 2) num_layers
          (prefixStr ++ FORWARD_PFX) dropout TIME_MAJOR cell_type forget_bias,
        reverse_rnn := mkEncoderClassInstance encoder_class (num_hidden / 2) num_layers
          (prefixStr ++ REVERSE_PFX) dropout TIME_MAJOR cell_type forget_bias,
        layout := layout,
        prefixStr := prefixStr }

/-- `BiDirectionalRNNEncoder._encode` (`encoder.py` lines 455-472):
length-aware reversal of the time-major input, forward RNN on the
original, reverse RNN on the reversed input, the same length-aware
reversal of the reverse RNN's output, and concatenation along axis 2. -/
def BiDirectionalRNNEncoder.encodeInternal (e : BiDirectionalRNNEncoder)
    (data data_length : Symb) (seq_len : Nat) : Symb :=
  let data_reverse := Symb.sequenceReverse data data_length true
  let hidden_forward := e.forward_rnn.encode data data_length seq_len
  let hidden_reverse := e.reverse_rnn.encode data_reverse data_length seq_len
  let hidden_reverse := Symb.sequenceReverse hidden_reverse data_length true
  Symb.concatSym hidden_forward hidden_reverse 2 (e.prefixStr ++ "_rnn")

/-- `BiDirectionalRNNEncoder.encode` (`encoder.py` lines 439-453): swaps
to time-major when constructed batch-major, runs `_encode`, swaps back. -/
def BiDirectionalRNNEncoder.encode (e : BiDirectionalRNNEncoder)
    (data data_length : Symb) (seq_len : Nat) : Symb :=
  let data := if firstChar e.layout = some 'N' then Symb.swapaxes data 0 1 else data
  let data := e.encodeInternal data data_length seq_len
  if firstChar e.layout = some 'N' then Symb.swapaxes data 0 1 else data

/-- One group of sub-layer modules created by an iteration of the
`TransformerEncoder.__init__` loop (`encoder.py` lines 518-535). -/
structure TransformerLayerGroup where
  attention : MultiHeadAttention
  attention_ln : LayerNormalization
  feed_forward : FFNRelu
  feed_forward_ln : LayerNormalization
deriving DecidableEq, Repr

/-- The sub-layer group created at iteration `i` of the constructor loop
(`encoder.py` lines 519-535), with the per-index name prefixes
`"%sattn_%d_"`, `"%sattn_ln_%d_"`, `"%sffn_%d_"`, `"%sffn_ln_%d_"`. -/
def mkTransformerLayerGroup (model_size attention_heads feed_forward_num_hidden : Nat)
    (dropout : Rat) (prefixStr : String) (i : Nat) : TransformerLayerGroup :=
  { attention := { depth_att := model_size, heads := attention_heads,
                   depth_out := model_size, dropout,
                   prefixStr := prefixStr ++ "attn_" ++ toString i ++ "_" },
    attention_ln := { num_hidden := model_size,
                      prefixStr := prefixStr ++ "attn_ln_" ++ toString i ++ "_" },
    feed_forward := { prefixStr := prefixStr ++ "ffn_" ++ toString i ++ "_",
                      num_hidden := feed_forward_num_hidden, num_model := model_size,
                      dropout },
    feed_forward_ln := { num_hidden := model_size,
                         prefixStr := prefixStr ++ "ffn_ln_" ++ toString i ++ "_" } }

/-- Transformer encoder (`encoder.py` class `TransformerEncoder`, lines
487-571).  `createdGroups` lists the sub-layer group built at each loop
iteration; `layers` gives, for each stored `apply` closure, the group it
applies when invoked after construction. -/
structure TransformerEncoder where
  model_size : Nat
  num_layers : Nat
  attention_heads : Nat
  feed_forward_num_hidden : Nat
  dropout : Rat
  prefixStr : String
  createdGroups : List TransformerLayerGroup
  layers : List TransformerLayerGroup
deriving DecidableEq, Repr

/-- `TransformerEncoder.__init__` (`encoder.py` lines 502-543).  The loop
body rebinds the constructor-local variables `attention`, `attention_ln`,
`feed_forward`, `feed_forward_ln` at every iteration and appends a
closure `apply` over those variables.  Python closures capture variables,
not values: all the stored closures share the constructor's frame, so
when any of them runs after construction it reads the values left by the
final iteration.  We therefore record, for each stored closure, the group
it applies: the group of the last iteration, `num_layers` times (and no
closures at all when `num_layers = 0`). -/
def TransformerEncoder.init (model_size num_layers attention_heads
    feed_forward_num_hidden : Nat) (dropout : Rat) (prefixStr : String) :
    TransformerEncoder :=
  let created := (List.range num_layers).map
    (mkTransformerLayerGroup model_size attention_heads feed_forward_num_hidden dropout prefixStr)
  { model_size, num_layers, attention_heads, feed_forward_num_hidden, dropout, prefixStr,
    createdGroups := created,
    layers := match created.getLast? with
      | none => []
      | some g => List.replicate num_layers g }

/-- The body of the per-layer closure `apply` (`encoder.py` lines
538-541): post-norm residual attention sub-layer followed by post-norm
residual feed-forward sub-layer, using the modules of group `g`. -/
def TransformerEncoder.applyLayer (g : TransformerLayerGroup)
    (data data_length : Symb) (seq_len : Nat) : Symb :=
  let encoded_attn :=
    Symb.lnNormalize g.attention_ln (Symb.add data (Symb.attnOn g.attention data data_length seq_len))
  Symb.lnNormalize g.feed_forward_ln
    (Symb.add encoded_attn (Symb.ffnApply g.feed_forward encoded_attn seq_len))

/-- `TransformerEncoder.encode` (`encoder.py` lines 545-559): folds the
input through the stored layer closures in order, passing `data_length`
and `seq_len` unchanged to each. -/
def TransformerEncoder.encode (e : TransformerEncoder) (data data_length : Symb)
    (seq_len : Nat) : Symb :=
  e.layers.foldl (fun encoded g => TransformerEncoder.applyLayer g encoded data_length seq_len) data

/-- `BatchMajor2TimeMajor` stage (`encoder.py` lines 150-181), plus the
closed set of encoder stage kinds defined by `encoder.py`; an
`EncoderSequence` is itself an encoder, so the sequence case nests lists
of encoders. -/
inductive EncoderKind where
  | batchMajor2TimeMajor (num_hidden : Nat)
  | embeddingStage (e : EmbeddingStage)
  | recurrent (e : RecurrentEncoder)
  | fusedRecurrent (e : FusedRecurrentEncoder)
  | biDirectionalRNN (e : BiDirectionalRNNEncoder)
  | transformer (e : TransformerEncoder)
  | sequenceOf (encoders : List EncoderKind)

mutual

/-- `encode` dispatch over the stage kinds: `BatchMajor2TimeMajor.encode`
(`encoder.py` lines 159-169) swaps axes 0 and 1; the other kinds
delegate to their own `encode`; `EncoderSequence.encode` (lines 269-280)
runs the stage loop. -/
def EncoderKind.encode : EncoderKind → Symb → Symb → Nat → Symb
  | .batchMajor2TimeMajor _, data, _, _ => Symb.swapaxes data 0 1
  | .embeddingStage e, data, dl, sl => EmbeddingStage.encode e data dl sl
  | .recurrent e, data, dl, sl => RecurrentEncoder.encode e data dl sl
  | .fusedRecurrent e, data, dl, sl => FusedRecurrentEncoder.encode e data dl sl
  | .biDirectionalRNN e, data, dl, sl => BiDirectionalRNNEncoder.encode e data dl sl
  | .transformer e, data, dl, sl => TransformerEncoder.encode e data dl sl
  | .sequenceOf es, data, dl, sl => EncoderKind.encodeList es data dl sl

/-- The loop body of `EncoderSequence.encode` (`encoder.py` lines
278-280): `for encoder in self.encoders: data = encoder.encode(data,
data_length, seq_len)`, threading `data_length` and `seq_len` unchanged. -/
def EncoderKind.encodeList : List EncoderKind → Symb → Symb → Nat → Symb
  | [], data, _, _ => data
  | e :: rest, data, dl, sl => EncoderKind.encodeList rest (EncoderKind.encode e data dl sl) dl sl

end

/-- `EncoderSequence.__init__` (`encoder.py` lines 266-267): the
constructor body is only `self.encoders = encoders`; it performs no
validation and cannot fail, for any list, the empty one included. -/
def EncoderSequence.init (encoders : List EncoderKind) : Except String EncoderKind :=
  Except.ok (EncoderKind.sequenceOf encoders)

/-- The hidden-to-hidden initializer chosen by `get_initializer`
(`initializer.py` lines 35-42). -/
inductive H2HInitChoice where
  | orthogonalDefault
  | stackedOrthogonal (scale : Rat) (rand_type : String)
deriving DecidableEq, Repr

/-- The mixed initializer returned by `get_initializer`
(`initializer.py` lines 44-51): the chosen h2h initializer for
`.*h2h.*` parameters, an optional lexicon initializer, and the Xavier
fallback for everything else. -/
structure MixedInitializer where
  h2h_init : H2HInitChoice
  has_lexicon : Bool
deriving DecidableEq, Repr

/-- `get_initializer` (`initializer.py` lines 26-51): accepts exactly the
orthogonal and stacked-orthogonal tags, raising `ValueError` on any other
tag; the stacked variant is constructed with `scale=1.0`,
`rand_type="eye"`. -/
def get_initializer (rnn_init_type : String) (lexicon : Option Unit) :
    Except String MixedInitializer :=
  if rnn_init_type = RNN_INIT_ORTHOGONAL then
    Except.ok { h2h_init := .orthogonalDefault, has_lexicon := lexicon.isSome }
  else if rnn_init_type = RNN_INIT_ORTHOGONAL_STACKED then
    Except.ok { h2h_init := .stackedOrthogonal 1 "eye", has_lexicon := lexicon.isSome }
  else
    Except.error ("unknown rnn initialization type: " ++ rnn_init_type)

/-- One `(base_dim, base_dim)` block written by
`StackedOrthogonalInit._init_weight` (`initializer.py` lines 88-100),
abstracted over the random draw: a block is identified by the branch that
produced it, the scale multiplied in at line 99, its size, and (for the
randomized branches) the loop index of the draw. -/
inductive OrthBlock where
  | uniformSvd (scale : Rat) (base_dim mat_idx : Nat)
  | normalSvd (scale : Rat) (base_dim mat_idx : Nat)
  | eyeBlock (scale : Rat) (base_dim : Nat)
deriving DecidableEq, Repr

/-- The body of the `mat_idx` loop of `_init_weight` (`initializer.py`
lines 88-100): selects the block by `rand_type`, raising `ValueError` on
any other value. -/
def StackedOrthogonalInit.initBlock (scale : Rat) (rand_type : String)
    (base_dim mat_idx : Nat) : Except String OrthBlock :=
  if rand_type = "uniform" then Except.ok (.uniformSvd scale base_dim mat_idx)
  else if rand_type = "normal" then Except.ok (.normalSvd scale base_dim mat_idx)
  else if rand_type = "eye" then Except.ok (.eyeBlock scale base_dim)
  else Except.error ("unknown rand_type " ++ rand_type)

/-- The `for mat_idx in range(0, num_sub_matrices)` loop of
`_init_weight`, collecting the blocks written into the weight in order
(and propagating the first raised error). -/
def StackedOrthogonalInit.initWeightLoop (scale : Rat) (rand_type : String)
    (base_dim : Nat) : Nat → Except String (List OrthBlock)
  | 0 => Except.ok []
  | n + 1 => do
      let blocks ← StackedOrthogonalInit.initWeightLoop scale rand_type base_dim n
      let b ← StackedOrthogonalInit.initBlock scale rand_type base_dim n
      Except.ok (blocks ++ [b])

/-- `StackedOrthogonalInit._init_weight` (`initializer.py` lines 77-100)
on a 2-D weight of shape `(rows, cols)`: with `cols = 0` the expression
`stacked_dim % base_dim` raises `ZeroDivisionError`; a row count that is
not a multiple of `cols` fails the stacking assertion; otherwise the loop
writes `rows / cols` blocks. -/
def StackedOrthogonalInit.initWeight (scale : Rat) (rand_type : String)
    (rows cols : Nat) : Except String (List OrthBlock) :=
  if cols = 0 then
    Except.error "ZeroDivisionError: integer division or modulo by zero"
  else if rows % cols ≠ 0 then
    Except.error "Dim1 must be a multiple of dim2 (as weight = stacked square matrices)."
  else
    StackedOrthogonalInit.initWeightLoop scale rand_type cols (rows / cols)

/-- Concrete row-level semantics of `mx.sym.slice_axis(..., axis=0,
begin=b, end=e)` on a table stored as a list of rows: the slice is the
rows `[b:e]`, and an end index beyond the table's row count is out of
bounds (MXNet rejects it when the graph is bound, so the computation is
undefined: `none`). -/
def sliceAxis0Rows {α : Type} (rows : List α) (b e : Nat) : Option (List α) :=
  if e ≤ rows.length then some ((rows.drop b).take (e - b)) else none

/-- The positional-encoding table declared by
`Embedding._get_positional_encoding` (`encoder.py` lines 238-241) at the
row level: 500 rows, the row at position `pos` holding the sinusoidal
encoding of `pos` across `num_embed` channels
(`PositionalEncodingInitializer`, `initializer.py` lines 103-132, is
deterministic in `(pos, num_embed)`, so a row is identified by that
pair; the slicing claims do not depend on the numeric sinusoid values). -/
def positionalTableRows (num_embed : Nat) : List (Nat × Nat) :=
  (List.range 500).map (fun pos => (pos, num_embed))

/-- C3 counterexample: `EncoderSequence.__init__` only stores the list, so
constructing an `EncoderSequence` from the empty list of stages succeeds,
contradicting the claim that it fails at construction time. -/
theorem encoder_sequence_empty_init_succeeds :
    EncoderSequence.init [] = Except.ok (EncoderKind.sequenceOf []) := rfl

/-- C3 (amended): constructing an `EncoderSequence` from any list of
stages, the empty list included, succeeds; the constructor performs no
validation of the stage count. -/
theorem encoder_sequence_init_never_fails (encoders : List EncoderKind) :
    EncoderSequence.init encoders = Except.ok (EncoderKind.sequenceOf encoders) := rfl

/-- C6: `EncoderSequence.encode` equals the left fold of the stages'
`encode` functions over the input in construction order, with the same
`data_length` symbol and `seq_len` value passed unchanged to every
stage. -/
theorem encoder_sequence_encode_foldl (encoders : List EncoderKind)
    (data data_length : Symb) (seq_len : Nat) :
    (EncoderKind.sequenceOf encoders).encode data data_length seq_len
      = encoders.foldl (fun d e => e.encode d data_length seq_len) data := by
  have h : ∀ (l : List EncoderKind) (d : Symb),
      EncoderKind.encodeList l d data_length seq_len
        = l.foldl (fun x e => e.encode x data_length seq_len) d := by
    intro l
    induction l with
    | nil => intro d; rfl
    | cons e rest ih => intro d; simp [EncoderKind.encodeList, ih]
  simpa [EncoderKind.encode] using h encoders data

/-- C7: a `TransformerEncoder` constructed with `num_layers = 0` has no
stored layer closures, so `encode` returns the input symbol unchanged. -/
theorem transformer_zero_layers_identity (model_size attention_heads
    feed_forward_num_hidden : Nat) (dropout : Rat) (prefixStr : String)
    (data data_length : Symb) (seq_len : Nat) :
    (TransformerEncoder.init model_size 0 attention_heads feed_forward_num_hidden
      dropout prefixStr).encode data data_length seq_len = data := rfl

/-- C4: every layer stored by the constructor computes the post-norm
residual composition `x2 = LayerNorm_ffn(x1 + FeedForward(x1))` with
`x1 = LayerNorm_attn(x + SelfAttention(x, lengths, max_len))`, each
layer's `x2` feeds the next layer, and the final `x2` is the output of
`encode`. -/
theorem transformer_encode_post_norm (model_size num_layers attention_heads
    feed_forward_num_hidden : Nat) (dropout : Rat) (prefixStr : String)
    (data data_length : Symb) (seq_len : Nat) :
    (TransformerEncoder.init model_size num_layers attention_heads
        feed_forward_num_hidden dropout prefixStr).encode data data_length seq_len
      = (TransformerEncoder.init model_size num_layers attention_heads
          feed_forward_num_hidden dropout prefixStr).layers.foldl
          (fun x g =>
            let x1 := Symb.lnNormalize g.attention_ln
              (Symb.add x (Symb.attnOn g.attention x data_length seq_len))
            Symb.lnNormalize g.feed_forward_ln
              (Symb.add x1 (Symb.ffnApply g.feed_forward x1 seq_len)))
          data := rfl

/-- C10: the `residual` argument of `FusedRecurrentEncoder.__init__` is
accepted but never read: constructions differing only in that flag yield
equal encoders, equal declared cell lists, and equal `encode` results on
every input. -/
theorem fused_residual_flag_ignored (num_hidden num_layers : Nat)
    (prefixStr : String) (dropout : Rat) (layout cell_type : String)
    (forget_bias : Rat) (r1 r2 : Bool) (data data_length : Symb) (seq_len : Nat) :
    FusedRecurrentEncoder.init num_hidden num_layers prefixStr dropout layout
        cell_type r1 forget_bias
      = FusedRecurrentEncoder.init num_hidden num_layers prefixStr dropout layout
        cell_type r2 forget_bias ∧
    (FusedRecurrentEncoder.init num_hidden num_layers prefixStr dropout layout
        cell_type r1 forget_bias).getRnnCells
      = (FusedRecurrentEncoder.init num_hidden num_layers prefixStr dropout layout
        cell_type r2 forget_bias).getRnnCells ∧
    (FusedRecurrentEncoder.init num_hidden num_layers prefixStr dropout layout
        cell_type r1 forget_bias).encode data data_length seq_len
      = (FusedRecurrentEncoder.init num_hidden num_layers prefixStr dropout layout
        cell_type r2 forget_bias).encode data data_length seq_len :=
  ⟨rfl, rfl, rfl⟩

/-- C2 is violated by the source: in the constructor loop every stored
`apply` closure captures the loop-local module variables, so after
construction all of them apply the sub-layer group of the final
iteration.  At `num_layers = 2`, two distinct groups are created, but
both stored layers apply group 1; layer 0 does not apply the 0-th group
it was created with. -/
theorem transformer_layers_all_apply_last_group :
    (TransformerEncoder.init 4 2 2 8 0 "transformer_encoder_").createdGroups
      = [mkTransformerLayerGroup 4 2 8 0 "transformer_encoder_" 0,
         mkTransformerLayerGroup 4 2 8 0 "transformer_encoder_" 1] ∧
    (TransformerEncoder.init 4 2 2 8 0 "transformer_encoder_").layers
      = [mkTransformerLayerGroup 4 2 8 0 "transformer_encoder_" 1,
         mkTransformerLayerGroup 4 2 8 0 "transformer_encoder_" 1] ∧
    mkTransformerLayerGroup 4 2 8 0 "transformer_encoder_" 0
      ≠ mkTransformerLayerGroup 4 2 8 0 "transformer_encoder_" 1 := by
  refine ⟨rfl, rfl, ?_⟩
  decide

/-- Reduction of `BiDirectionalRNNEncoder.init` on an even width and a
non-empty layout string: the check passes and construction yields the
record with half-width forward and reverse sub-encoders. -/
theorem bidir_init_ok (num_hidden num_layers : Nat) (prefixStr : String)
    (dropout : Rat) (layout cell_type : String) (ec : EncoderClassTag)
    (forget_bias : Rat) (h : num_hidden % 2 = 0) (c : Char)
    (hc : firstChar layout = some c) :
    BiDirectionalRNNEncoder.init num_hidden num_layers prefixStr dropout layout
        cell_type ec forget_bias
      = Except.ok
        { num_hidden := num_hidden,
          forward_rnn := mkEncoderClassInstance ec (num_hidden / 2) num_layers
            (prefixStr ++ FORWARD_PFX) dropout TIME_MAJOR cell_type forget_bias,
          reverse_rnn := mkEncoderClassInstance ec (num_hidden / 2) num_layers
            (prefixStr ++ REVERSE_PFX) dropout TIME_MAJOR cell_type forget_bias,
          layout := layout,
          prefixStr := prefixStr } := by
  have hb : (num_hidden % 2 == 0) = true := by simp [h]
  simp [BiDirectionalRNNEncoder.init, check_condition, hb, hc, Bind.bind, Except.bind]

/-- Reduction of `BiDirectionalRNNEncoder.init` on an odd width: the
check fires before anything else and construction fails with the
descriptive message. -/
theorem bidir_init_odd (num_hidden num_layers : Nat) (prefixStr : String)
    (dropout : Rat) (layout cell_type : String) (ec : EncoderClassTag)
    (forget_bias : Rat) (h : num_hidden % 2 = 1) :
    BiDirectionalRNNEncoder.init num_hidden num_layers prefixStr dropout layout
        cell_type ec forget_bias
      = Except.error "num_hidden must be a multiple of 2 for BiDirectionalRNNEncoders." := by
  have hb : (num_hidden % 2 == 0) = false := by simp [h]
  simp [BiDirectionalRNNEncoder.init, check_condition, hb, Bind.bind, Except.bind]

/-- C1: constructing a `BiDirectionalRNNEncoder` with an even
`num_hidden` succeeds, and with an odd `num_hidden` fails at construction
time with the descriptive configuration error, before any `encode`
call. -/
theorem bidirectional_even_odd_construction (num_hidden num_layers : Nat)
    (prefixStr : String) (dropout : Rat) (layout cell_type : String)
    (encoder_class : EncoderClassTag) (forget_bias : Rat)
    (hlayout : layout = TIME_MAJOR ∨ layout = BATCH_MAJOR) :
    (num_hidden % 2 = 0 →
      ∃ e, BiDirectionalRNNEncoder.init num_hidden num_layers prefixStr dropout
        layout cell_type encoder_class forget_bias = Except.ok e) ∧
    (num_hidden % 2 = 1 →
      BiDirectionalRNNEncoder.init num_hidden num_layers prefixStr dropout
        layout cell_type encoder_class forget_bias
      = Except.error "num_hidden must be a multiple of 2 for BiDirectionalRNNEncoders.") := by
  constructor
  · intro h
    rcases hlayout with rfl | rfl
    · exact ⟨_, bidir_init_ok num_hidden num_layers prefixStr dropout TIME_MAJOR
        cell_type encoder_class forget_bias h 'T' rfl⟩
    · exact ⟨_, bidir_init_ok num_hidden num_layers prefixStr dropout BATCH_MAJOR
        cell_type encoder_class forget_bias h 'N' rfl⟩
  · intro h
    exact bidir_init_odd num_hidden num_layers prefixStr dropout layout cell_type
      encoder_class forget_bias h

/-- Witness for C1 at `num_hidden = 4` (succeeds) and `num_hidden = 3`
(fails with the configuration error). -/
theorem bidirectional_even_odd_construction_witness :
    (∃ e, BiDirectionalRNNEncoder.init 4 1 "encoder_birnn_" 0 TIME_MAJOR "lstm"
      EncoderClassTag.recurrentClass 0 = Except.ok e) ∧
    BiDirectionalRNNEncoder.init 3 1 "encoder_birnn_" 0 TIME_MAJOR "lstm"
      EncoderClassTag.recurrentClass 0
      = Except.error "num_hidden must be a multiple of 2 for BiDirectionalRNNEncoders." :=
  ⟨(bidirectional_even_odd_construction 4 1 "encoder_birnn_" 0 TIME_MAJOR "lstm"
      EncoderClassTag.recurrentClass 0 (Or.inl rfl)).1 rfl,
   (bidirectional_even_odd_construction 3 1 "encoder_birnn_" 0 TIME_MAJOR "lstm"
      EncoderClassTag.recurrentClass 0 (Or.inl rfl)).2 rfl⟩

/-- Either uni-directional encoder class produced by
`mkEncoderClassInstance` declares an output of exactly the width it was
constructed with, whatever the input symbol. -/
theorem uni_encode_channels (tag : EncoderClassTag) (num_hidden num_layers : Nat)
    (prefixStr : String) (dropout : Rat) (layout cell_type : String)
    (forget_bias : Rat) (data data_length : Symb) (seq_len : Nat) :
    symbChannels ((mkEncoderClassInstance tag num_hidden num_layers prefixStr dropout
      layout cell_type forget_bias).encode data data_length seq_len) = some num_hidden := by
  cases tag <;> rfl

/-- C5: for an even width, the time-major bidirectional encoder computes
the length-aware reversal of the input, runs the forward RNN on the
original input and the reverse RNN on the reversed input, applies the
same length-aware reversal to the reverse RNN's output, and concatenates
both along the channel axis for `num_hidden` total channels; constructed
batch-major, the input is swapped to time-major before this computation
and the result swapped back on exit. -/
theorem bidirectional_encode_structure (num_hidden num_layers : Nat)
    (prefixStr : String) (dropout : Rat) (cell_type : String)
    (ec : EncoderClassTag) (forget_bias : Rat) (heven : num_hidden % 2 = 0)
    (data data_length : Symb) (seq_len : Nat) :
    ∃ eT eN : BiDirectionalRNNEncoder,
      BiDirectionalRNNEncoder.init num_hidden num_layers prefixStr dropout
        TIME_MAJOR cell_type ec forget_bias = Except.ok eT ∧
      BiDirectionalRNNEncoder.init num_hidden num_layers prefixStr dropout
        BATCH_MAJOR cell_type ec forget_bias = Except.ok eN ∧
      eT.encode data data_length seq_len
        = Symb.concatSym
            (eT.forward_rnn.encode data data_length seq_len)
            (Symb.sequenceReverse
              (eT.reverse_rnn.encode (Symb.sequenceReverse data data_length true)
                data_length seq_len)
              data_length true)
            2 (prefixStr ++ "_rnn") ∧
      symbChannels (eT.encode data data_length seq_len) = some num_hidden ∧
      eN.encode data data_length seq_len
        = Symb.swapaxes
            (eN.encodeInternal (Symb.swapaxes data 0 1) data_length seq_len) 0 1 ∧
      eN.forward_rnn = eT.forward_rnn ∧ eN.reverse_rnn = eT.reverse_rnn := by
  refine ⟨_, _,
    bidir_init_ok num_hidden num_layers prefixStr dropout TIME_MAJOR cell_type ec
      forget_bias heven 'T' rfl,
    bidir_init_ok num_hidden num_layers prefixStr dropout BATCH_MAJOR cell_type ec
      forget_bias heven 'N' rfl,
    rfl, ?_, rfl, rfl, rfl⟩
  have h1 := uni_encode_channels ec (num_hidden / 2) num_layers
    (prefixStr ++ FORWARD_PFX) dropout TIME_MAJOR cell_type forget_bias
    data data_length seq_len
  have h2 := uni_encode_channels ec (num_hidden / 2) num_layers
    (prefixStr ++ REVERSE_PFX) dropout TIME_MAJOR cell_type forget_bias
    (Symb.sequenceReverse data data_length true) data_length seq_len
  have hmain : symbChannels
      (Symb.concatSym
        ((mkEncoderClassInstance ec (num_hidden / 2) num_layers
          (prefixStr ++ FORWARD_PFX) dropout TIME_MAJOR cell_type forget_bias).encode
            data data_length seq_len)
        (Symb.sequenceReverse
          ((mkEncoderClassInstance ec (num_hidden / 2) num_layers
            (prefixStr ++ REVERSE_PFX) dropout TIME_MAJOR cell_type forget_bias).encode
              (Symb.sequenceReverse data data_length true) data_length seq_len)
          data_length true)
        2 (prefixStr ++ "_rnn")) = some num_hidden := by
    simp [symbChannels, h1, h2]
    omega
  exact hmain

/-- Witness for C5 at `num_hidden = 4`, one layer, LSTM cells of the
non-fused class, on a concrete input symbol. -/
theorem bidirectional_encode_structure_witness :
    ∃ eT eN : BiDirectionalRNNEncoder,
      BiDirectionalRNNEncoder.init 4 1 "encoder_birnn_" 0 TIME_MAJOR "lstm"
        EncoderClassTag.recurrentClass 0 = Except.ok eT ∧
      BiDirectionalRNNEncoder.init 4 1 "encoder_birnn_" 0 BATCH_MAJOR "lstm"
        EncoderClassTag.recurrentClass 0 = Except.ok eN ∧
      eT.encode (Symb.var "src") (Symb.var "src_length") 7
        = Symb.concatSym
            (eT.forward_rnn.encode (Symb.var "src") (Symb.var "src_length") 7)
            (Symb.sequenceReverse
              (eT.reverse_rnn.encode
                (Symb.sequenceReverse (Symb.var "src") (Symb.var "src_length") true)
                (Symb.var "src_length") 7)
              (Symb.var "src_length") true)
            2 ("encoder_birnn_" ++ "_rnn") ∧
      symbChannels (eT.encode (Symb.var "src") (Symb.var "src_length") 7) = some 4 ∧
      eN.encode (Symb.var "src") (Symb.var "src_length") 7
        = Symb.swapaxes
            (eN.encodeInternal (Symb.swapaxes (Symb.var "src") 0 1)
              (Symb.var "src_length") 7) 0 1 ∧
      eN.forward_rnn = eT.forward_rnn ∧ eN.reverse_rnn = eT.reverse_rnn :=
  bidirectional_encode_structure 4 1 "encoder_birnn_" 0 "lstm"
    EncoderClassTag.recurrentClass 0 rfl (Symb.var "src") (Symb.var "src_length") 7

/-- C8: with positional encoding enabled, `encode` adds, broadcast over
the batch, the `[0:max_len]` slice of the `(500, num_embed)` positional
table to the looked-up embeddings; at the row level the slice is exactly
the first `max_len` rows when `1 ≤ max_len ≤ 500`, and is out of bounds
(undefined, a caller precondition) when `max_len > 500`. -/
theorem embedding_positional_slice (num_embed vocab_size : Nat)
    (prefixStr : String) (max_len : Nat) (data data_length : Symb) :
    (∀ dropout : Rat,
      (EmbeddingStage.init num_embed vocab_size prefixStr dropout true).encode
          data data_length max_len
        = (let emb := Symb.embeddingOp data vocab_size
             (Symb.var (prefixStr ++ "weight")) num_embed (prefixStr ++ "embed")
           let withPos := Symb.broadcastAdd emb
             (Symb.blockGrad (Symb.expandDims
               (Symb.sliceAxis
                 (Symb.posEncVar (prefixStr ++ "positional_encodings") 500 num_embed)
                 0 0 max_len) 0))
             (prefixStr ++ "add_encoding")
           if 0 < dropout then
             Symb.dropoutOp withPos dropout "source_embed_dropout"
           else withPos)) ∧
    (1 ≤ max_len → max_len ≤ 500 →
      sliceAxis0Rows (positionalTableRows num_embed) 0 max_len
        = some ((List.range max_len).map (fun pos => (pos, num_embed)))) ∧
    (500 < max_len →
      sliceAxis0Rows (positionalTableRows num_embed) 0 max_len = none) := by
  refine ⟨fun dropout => rfl, ?_, ?_⟩
  · intro _ h500
    have hlen : (positionalTableRows num_embed).length = 500 := by
      simp [positionalTableRows]
    have htake : ((List.range 500).map (fun pos => (pos, num_embed))).take max_len
        = (List.range max_len).map (fun pos => (pos, num_embed)) := by
      rw [← List.map_take, List.take_range, Nat.min_eq_left h500]
    simp [sliceAxis0Rows, hlen, h500, positionalTableRows, htake]
  · intro h
    have hlen : (positionalTableRows num_embed).length = 500 := by
      simp [positionalTableRows]
    simp [sliceAxis0Rows, hlen, Nat.not_le.mpr h]

/-- Witness for C8 at `num_embed = 4`: the in-bounds slice at
`max_len = 3` and the out-of-bounds slice at `max_len = 600`. -/
theorem embedding_positional_slice_witness :
    sliceAxis0Rows (positionalTableRows 4) 0 3
      = some ((List.range 3).map (fun pos => (pos, 4))) ∧
    sliceAxis0Rows (positionalTableRows 4) 0 600 = none :=
  ⟨(embedding_positional_slice 4 10 "source_embed_" 3 (Symb.var "src")
      (Symb.var "src_length")).2.1 (by decide) (by decide),
   (embedding_positional_slice 4 10 "source_embed_" 600 (Symb.var "src")
      (Symb.var "src_length")).2.2 (by decide)⟩

/-- C9 counterexample: on a 2-D weight with zero rows the `_init_weight`
loop body never runs, so an unrecognized `rand_type` raises no error at
all — the universal "raises an unknown-type error for every rand_type
other than uniform, normal and eye" fails on the weight shape `(0, 2)`. -/
theorem stacked_orthogonal_unknown_tag_zero_rows_ok :
    StackedOrthogonalInit.initWeight 1 "bogus" 0 2 = Except.ok [] ∧
    "bogus" ≠ "uniform" ∧ "bogus" ≠ "normal" ∧ "bogus" ≠ "eye" := by
  refine ⟨rfl, ?_, ?_, ?_⟩ <;> decide

/-- C9 (amended): `get_initializer` raises the unknown-type error for
every tag other than the orthogonal and stacked-orthogonal tags, and
`StackedOrthogonalInit._init_weight` raises the unknown-`rand_type`
error for every tag other than uniform, normal and eye whenever the
weight holds at least one stacked square sub-matrix (rows positive and a
multiple of the positive column count); no unrecognized tag is ever
silently replaced by a default. -/
theorem unknown_initializer_tags_error (t rand_type : String)
    (lexicon : Option Unit) (scale : Rat) (rows cols : Nat)
    (ht1 : t ≠ RNN_INIT_ORTHOGONAL) (ht2 : t ≠ RNN_INIT_ORTHOGONAL_STACKED)
    (hr1 : rand_type ≠ "uniform") (hr2 : rand_type ≠ "normal")
    (hr3 : rand_type ≠ "eye") (hrows : 0 < rows) (hcols : cols ≠ 0)
    (hdiv : rows % cols = 0) :
    get_initializer t lexicon
      = Except.error ("unknown rnn initialization type: " ++ t) ∧
    StackedOrthogonalInit.initWeight scale rand_type rows cols
      = Except.error ("unknown rand_type " ++ rand_type) := by
  constructor
  · simp [get_initializer, ht1, ht2]
  · have hq : 0 < rows / cols :=
      Nat.div_pos (Nat.le_of_dvd hrows (Nat.dvd_of_mod_eq_zero hdiv))
        (Nat.pos_of_ne_zero hcols)
    have loopErr : ∀ n : Nat,
        StackedOrthogonalInit.initWeightLoop scale rand_type cols (n + 1)
          = Except.error ("unknown rand_type " ++ rand_type) := by
      intro n
      induction n with
      | zero =>
          simp [StackedOrthogonalInit.initWeightLoop,
            StackedOrthogonalInit.initBlock, hr1, hr2, hr3, Bind.bind, Except.bind]
      | succ k ih =>
          show (do
            let blocks ← StackedOrthogonalInit.initWeightLoop scale rand_type cols (k + 1)
            let b ← StackedOrthogonalInit.initBlock scale rand_type cols (k + 1)
            Except.ok (blocks ++ [b]))
              = Except.error ("unknown rand_type " ++ rand_type)
          rw [ih]
          rfl
    obtain ⟨n, hn⟩ := Nat.exists_eq_succ_of_ne_zero (Nat.pos_iff_ne_zero.mp hq)
    simp [StackedOrthogonalInit.initWeight, hcols, hdiv, hn, loopErr n]

/-- Witness for C9 (amended) at the unrecognized tags `"xavier"` and
`"bogus"` on a `(4, 2)` weight. -/
theorem unknown_initializer_tags_error_witness :
    get_initializer "xavier" none
      = Except.error ("unknown rnn initialization type: " ++ "xavier") ∧
    StackedOrthogonalInit.initWeight 1 "bogus" 4 2
      = Except.error ("unknown rand_type " ++ "bogus") :=
  unknown_initializer_tags_error "xavier" "bogus" none 1 4 2
    (by decide) (by decide) (by decide) (by decide) (by decide)
    (by decide) (by decide) (by decide)
